import Mathlib

/-!
Verification of the multi-stage workflow orchestrator of this repository:
shallow embedding of `workflow/service/code_run_agent.py`,
`workflow/service/code_act_agent.py`, `workflow/service/main.py`,
`workflow/service/code_analyze_agent.py`,
`workflow/service/css_analyze_agent.py` and
`workflow/service/css_generator_agent.py`.

External collaborators (the LLM completion service, the shell command
runner, the filesystem) are modelled as explicit oracle parameters: an
`Except` value models a Python call that either returns or raises, and a
function `Nat → _` indexed by the iteration number models the outcome of a
non-deterministic external call at each pass of a loop.  Side effects
(file writes, subprocess launches) are recorded as explicit event lists so
that ordering and absence of effects can be stated.
-/

namespace Workflow

/-! ## Build-repair loop: `code_run_agent.py::code_run_build_with_fix` -/

/-- Outcomes of the external collaborators consulted during one iteration
of the repair loop.  `buildSuccess` is the boolean returned by
`_run_command` for the build command; `extract` is the outcome of
`_extract_error_files` (`Except.error` models the raised exception and
`Except.ok` the returned list of relative paths); `fixOk f = false` models
`_fix_error_file` raising for file `f`, `true` a normal return (including
the no-op return when the file no longer exists on disk). -/
structure IterationEnv where
  buildSuccess : Bool
  extract : Except String (List String)
  fixOk : String → Bool

/-- Observable events of one run of `code_run_build_with_fix`: the
best-effort ESLint pre-step, each run of the build command (tagged with the
1-based iteration number), and each call to `_fix_error_file`. -/
inductive BuildEvent where
  | eslintRun : BuildEvent
  | buildRun : Nat → BuildEvent
  | fixCall : Nat → String → BuildEvent
deriving DecidableEq, Repr

/-- Terminal outcome of `code_run_build_with_fix`: either the build
succeeded, or `BuildMaxIterationsError` was raised carrying the maximum
iteration count (source lines 70-75 and 529-531). -/
inductive BuildLoopResult where
  | buildOk : BuildLoopResult
  | buildMaxIterationsError : Nat → BuildLoopResult
deriving DecidableEq, Repr

/-- Files for which `_fix_error_file` is actually invoked within one
iteration.  The `for error_file in error_files` loop (source lines
519-521) calls the fixer on each path in order; if a call raises the
exception escapes the `for` into the iteration-level `try` (line 511), so
the paths after the raising one are never passed to the fixer. -/
def fixPassCalls (fixOk : String → Bool) : List String → List String
  | [] => []
  | f :: rest => if fixOk f then f :: fixPassCalls fixOk rest else [f]

/-- Fix-related events of one failed-build iteration (source lines
510-527): the extraction call either raises (caught at line 525, no fixer
calls) or returns a list of paths on which the fix pass runs. -/
def iterationFixEvents (e : IterationEnv) (it : Nat) : List BuildEvent :=
  match e.extract with
  | .error _ => []
  | .ok files => (fixPassCalls e.fixOk files).map (BuildEvent.fixCall it)

/-- Iterative build-and-fix process of `code_run_build_with_fix` (source
lines 488-531).  The Python loop is `while iteration < max_iterations`
with `iteration += 1` at the top; `fuel = max_iterations - iteration`
decreases by one per pass and the recursion carries the incremented
iteration counter.  On a failed build the extraction/fix pass runs (its
own failures are caught and logged, lines 514-527) and the loop continues;
when the fuel is exhausted `BuildMaxIterationsError` is raised. -/
def buildFixLoop (env : Nat → IterationEnv) (maxIterations : Nat) :
    Nat → Nat → BuildLoopResult × List BuildEvent
  | 0, _ => (.buildMaxIterationsError maxIterations, [])
  | fuel + 1, iteration =>
    let it := iteration + 1
    let e := env it
    if e.buildSuccess then (.buildOk, [.buildRun it])
    else
      let rest := buildFixLoop env maxIterations fuel it
      (rest.1, BuildEvent.buildRun it :: iterationFixEvents e it ++ rest.2)

/-- Entry point `code_run_build_with_fix` (source lines 440-537),
restricted to the paths that pass its precondition checks (directory
exists, non-empty build command).  The ESLint pre-step runs once when a
lint command is configured; its success or failure never affects the loop
(lines 476-486).  The loop then runs with the fixed policy constant
`max_iterations = 20` (line 489), starting from `iteration = 0`. -/
def code_run_build_with_fix (eslintFixCommand : Option String)
    (env : Nat → IterationEnv) : BuildLoopResult × List BuildEvent :=
  let pre : List BuildEvent :=
    match eslintFixCommand with
    | some _ => [.eslintRun]
    | none => []
  let r := buildFixLoop env 20 20 0
  (r.1, pre ++ r.2)

/-- Recognizer for build-command runs among the recorded events. -/
def isBuildRun : BuildEvent → Bool
  | .buildRun _ => true
  | _ => false

/-- Number of times the build command was run in a recorded event list. -/
def buildAttemptCount (events : List BuildEvent) : Nat :=
  (events.filter isBuildRun).length

theorem fixEvents_no_buildRun (e : IterationEnv) (it : Nat) :
    (iterationFixEvents e it).filter isBuildRun = [] := by
  unfold iterationFixEvents
  cases e.extract with
  | error _ => rfl
  | ok files =>
    simp only [List.filter_eq_nil_iff, List.mem_map]
    rintro x ⟨f, _, rfl⟩
    simp [isBuildRun]

theorem buildAttemptCount_append (a b : List BuildEvent) :
    buildAttemptCount (a ++ b) = buildAttemptCount a + buildAttemptCount b := by
  simp [buildAttemptCount, List.filter_append]

theorem buildFixLoop_all_fail (env : Nat → IterationEnv) (m : Nat)
    (h : ∀ n, (env n).buildSuccess = false) :
    ∀ fuel iteration,
      (buildFixLoop env m fuel iteration).1 = .buildMaxIterationsError m ∧
      buildAttemptCount (buildFixLoop env m fuel iteration).2 = fuel := by
  intro fuel
  induction fuel with
  | zero => intro iteration; exact ⟨rfl, rfl⟩
  | succ n ih =>
    intro iteration
    have hb := h (iteration + 1)
    unfold buildFixLoop
    simp only [hb, if_false, Bool.false_eq_true]
    refine ⟨(ih (iteration + 1)).1, ?_⟩
    have h1 : buildAttemptCount
        (BuildEvent.buildRun (iteration + 1) ::
          iterationFixEvents (env (iteration + 1)) (iteration + 1) ++
          (buildFixLoop env m n (iteration + 1)).2) = n + 1 := by
      have h2 := buildAttemptCount_append
        (BuildEvent.buildRun (iteration + 1) ::
          iterationFixEvents (env (iteration + 1)) (iteration + 1))
        (buildFixLoop env m n (iteration + 1)).2
      rw [List.cons_append] at h2 ⊢
      rw [h2, (ih (iteration + 1)).2]
      have h3 : buildAttemptCount
          (BuildEvent.buildRun (iteration + 1) ::
            iterationFixEvents (env (iteration + 1)) (iteration + 1)) = 1 := by
        simp [buildAttemptCount, List.filter_cons, isBuildRun,
          fixEvents_no_buildRun]
      omega
    exact h1

/-- Claim C1: if the build command fails on every attempt, the repair loop
terminates after exactly 20 build attempts (the fixed maximum) and raises
`BuildMaxIterationsError` carrying that maximum; it never loops
indefinitely (termination is witnessed by `code_run_build_with_fix` being
a total function). -/
theorem C1_build_loop_exhaustion (eslintFixCommand : Option String)
    (env : Nat → IterationEnv) (h : ∀ n, (env n).buildSuccess = false) :
    (code_run_build_with_fix eslintFixCommand env).1 =
      .buildMaxIterationsError 20 ∧
    buildAttemptCount (code_run_build_with_fix eslintFixCommand env).2 = 20 := by
  have hm := buildFixLoop_all_fail env 20 h 20 0
  unfold code_run_build_with_fix
  cases eslintFixCommand with
  | none => simpa using hm
  | some c =>
    refine ⟨hm.1, ?_⟩
    have := buildAttemptCount_append [BuildEvent.eslintRun]
      (buildFixLoop env 20 20 0).2
    simpa [this, buildAttemptCount] using hm.2

/-- Environment in which the build fails at every iteration and error-file
extraction always returns the empty list. -/
def alwaysFailEnv : Nat → IterationEnv :=
  fun _ => ⟨false, .ok [], fun _ => true⟩

/-- Witness for C1 at a concrete environment. -/
theorem C1_build_loop_exhaustion_witness :
    (code_run_build_with_fix none alwaysFailEnv).1 =
      .buildMaxIterationsError 20 ∧
    buildAttemptCount (code_run_build_with_fix none alwaysFailEnv).2 = 20 :=
  C1_build_loop_exhaustion none alwaysFailEnv (fun _ => rfl)

theorem buildFixLoop_step_fail (env : Nat → IterationEnv) (m fuel it : Nat)
    (hb : (env (it + 1)).buildSuccess = false) :
    buildFixLoop env m (fuel + 1) it =
      ((buildFixLoop env m fuel (it + 1)).1,
        BuildEvent.buildRun (it + 1) ::
          iterationFixEvents (env (it + 1)) (it + 1) ++
          (buildFixLoop env m fuel (it + 1)).2) := by
  have h : buildFixLoop env m (fuel + 1) it =
      (if (env (it + 1)).buildSuccess = true then
        (BuildLoopResult.buildOk, [BuildEvent.buildRun (it + 1)])
      else
        ((buildFixLoop env m fuel (it + 1)).1,
          BuildEvent.buildRun (it + 1) ::
            iterationFixEvents (env (it + 1)) (it + 1) ++
            (buildFixLoop env m fuel (it + 1)).2)) := rfl
  rw [h, if_neg (by simp [hb])]

theorem buildFixLoop_head (env : Nat → IterationEnv) (m fuel it : Nat) :
    ((buildFixLoop env m (fuel + 1) it).2).head? =
      some (.buildRun (it + 1)) := by
  unfold buildFixLoop
  by_cases hb : (env (it + 1)).buildSuccess = true
  · simp [hb]
  · simp [hb]

/-- Claim C7: when the build fails and error-file extraction returns an
empty list, the loop consumes that iteration and proceeds to retry the
build without fixing any file: the recorded events show the failed first
build attempt immediately followed by the second build attempt, and the
final outcome is exactly that of the loop continuing with the remaining 19
iterations (neither a short-circuit to success nor an immediate
exhaustion). -/
theorem C7_empty_extraction_consumes_iteration (env : Nat → IterationEnv)
    (h1 : (env 1).buildSuccess = false)
    (h2 : (env 1).extract = .ok []) :
    (code_run_build_with_fix none env).2 =
      BuildEvent.buildRun 1 :: (buildFixLoop env 20 19 1).2 ∧
    ((buildFixLoop env 20 19 1).2).head? = some (.buildRun 2) ∧
    (code_run_build_with_fix none env).1 = (buildFixLoop env 20 19 1).1 := by
  have hfix : iterationFixEvents (env 1) 1 = [] := by
    unfold iterationFixEvents
    rw [h2]
    rfl
  have hstep :
      buildFixLoop env 20 20 0 =
        ((buildFixLoop env 20 19 1).1,
          BuildEvent.buildRun 1 :: iterationFixEvents (env 1) 1 ++
            (buildFixLoop env 20 19 1).2) := by
    have := buildFixLoop_step_fail env 20 19 0 h1
    simpa using this
  refine ⟨?_, ?_, ?_⟩
  · unfold code_run_build_with_fix
    rw [hstep, hfix]
    rfl
  · have := buildFixLoop_head env 20 18 1
    simpa using this
  · unfold code_run_build_with_fix
    rw [hstep]

/-- Environment for the C7 witness: iteration 1 fails with empty
extraction, every later iteration builds successfully. -/
def c7Env : Nat → IterationEnv :=
  fun n => if n = 1 then ⟨false, .ok [], fun _ => true⟩
           else ⟨true, .ok [], fun _ => true⟩

/-- Witness for C7 at a concrete environment. -/
theorem C7_empty_extraction_consumes_iteration_witness :
    (code_run_build_with_fix none c7Env).2 =
      BuildEvent.buildRun 1 :: (buildFixLoop c7Env 20 19 1).2 ∧
    ((buildFixLoop c7Env 20 19 1).2).head? = some (.buildRun 2) ∧
    (code_run_build_with_fix none c7Env).1 = (buildFixLoop c7Env 20 19 1).1 :=
  C7_empty_extraction_consumes_iteration c7Env rfl rfl

/-- Environment for the C3 counterexample: at iteration 1 the build fails,
extraction returns the two files `a` and `b`, and the fixer raises on `a`;
from iteration 2 on the build succeeds. -/
def c3Env : Nat → IterationEnv :=
  fun n => if n = 1 then ⟨false, .ok ["a", "b"], fun f => !(f == "a")⟩
           else ⟨true, .ok [], fun _ => true⟩

/-- Counterexample to claim C3: with two extracted files `a` and `b` in
the same iteration and the fixer raising on `a`, the claim says `b` is
still attempted before the next build run; in the code the exception from
`_fix_error_file` escapes the `for` loop into the iteration-level `except`
(source lines 525-527), so `b` is never passed to the fixer. -/
theorem C3_counterexample :
    (c3Env 1).extract = .ok ["a", "b"] ∧
    (c3Env 1).fixOk "a" = false ∧
    BuildEvent.fixCall 1 "a" ∈ (code_run_build_with_fix none c3Env).2 ∧
    BuildEvent.fixCall 1 "b" ∉ (code_run_build_with_fix none c3Env).2 := by
  refine ⟨rfl, rfl, ?_, ?_⟩ <;> decide

theorem fixPassCalls_abort (fixOk : String → Bool) (l1 l2 : List String)
    (f : String) (h1 : ∀ g ∈ l1, fixOk g = true) (hf : fixOk f = false) :
    fixPassCalls fixOk (l1 ++ f :: l2) = l1 ++ [f] := by
  induction l1 with
  | nil => simp [fixPassCalls, hf]
  | cons g rest ih =>
    have hg : fixOk g = true := h1 g (List.mem_cons_self g rest)
    have ih2 := ih (fun x hx => h1 x (List.mem_cons_of_mem g hx))
    simp [fixPassCalls, hg, ih2]

/-- Claim C3 as amended: within one iteration of the build-repair loop,
when `_fix_error_file` raises for one extracted file, the remaining files
of that iteration's batch are skipped (the fix pass aborts), while the
loop itself continues to the next build attempt.  Stated for iteration 1:
with extracted files `l1 ++ f :: l2`, all of `l1` fixed successfully and
the fix of `f` raising, the fixer is called exactly on `l1 ++ [f]` and the
next event is the second build run. -/
theorem C3_fix_failure_aborts_batch (env : Nat → IterationEnv)
    (l1 l2 : List String) (f : String)
    (hb : (env 1).buildSuccess = false)
    (he : (env 1).extract = .ok (l1 ++ f :: l2))
    (h1 : ∀ g ∈ l1, (env 1).fixOk g = true)
    (hf : (env 1).fixOk f = false) :
    (code_run_build_with_fix none env).2 =
      BuildEvent.buildRun 1 ::
        (l1 ++ [f]).map (BuildEvent.fixCall 1) ++
        (buildFixLoop env 20 19 1).2 ∧
    ((buildFixLoop env 20 19 1).2).head? = some (.buildRun 2) ∧
    (code_run_build_with_fix none env).1 = (buildFixLoop env 20 19 1).1 := by
  have hfix : iterationFixEvents (env 1) 1 =
      (l1 ++ [f]).map (BuildEvent.fixCall 1) := by
    unfold iterationFixEvents
    simp only [he]
    rw [fixPassCalls_abort (env 1).fixOk l1 l2 f h1 hf]
  have hstep :
      buildFixLoop env 20 20 0 =
        ((buildFixLoop env 20 19 1).1,
          BuildEvent.buildRun 1 :: iterationFixEvents (env 1) 1 ++
            (buildFixLoop env 20 19 1).2) := by
    have := buildFixLoop_step_fail env 20 19 0 hb
    simpa using this
  refine ⟨?_, ?_, ?_⟩
  · unfold code_run_build_with_fix
    rw [hstep, hfix]
    rfl
  · have := buildFixLoop_head env 20 18 1
    simpa using this
  · unfold code_run_build_with_fix
    rw [hstep]

/-- Witness for the amended C3 at the concrete environment `c3Env`
(extracted files `["a", "b"]` with the fix of `a` raising, so the fixer is
called exactly on `a`). -/
theorem C3_fix_failure_aborts_batch_witness :
    (code_run_build_with_fix none c3Env).2 =
      BuildEvent.buildRun 1 ::
        (([] : List String) ++ ["a"]).map (BuildEvent.fixCall 1) ++
        (buildFixLoop c3Env 20 19 1).2 ∧
    ((buildFixLoop c3Env 20 19 1).2).head? = some (.buildRun 2) ∧
    (code_run_build_with_fix none c3Env).1 = (buildFixLoop c3Env 20 19 1).1 :=
  C3_fix_failure_aborts_batch c3Env [] ["b"] "a" rfl rfl
    (fun g hg => absurd hg (List.not_mem_nil g)) rfl

/-! ## Concurrent file processor: `code_act_agent.py` -/

/-- One filesystem entry met by the recursive glob of a scanning loop: its
path relative to the project root, its path components (used for the
excluded-directory check), and its content — `none` models a file that
exists but cannot be read (the `open` call raising). -/
structure ScanEntry where
  relPath : String
  parts : List String
  content : Option String
deriving DecidableEq, Repr

/-- Directories excluded by `_scan_frontend_files`
(`code_act_agent.py` lines 129-132). -/
def frontendExcludeDirs : List String :=
  ["node_modules", ".git", ".next", "dist", "build",
   "__pycache__", ".vscode", ".idea", "coverage", ".nuxt"]

/-- Check of `code_act_agent.py` line 141: an entry is skipped when any of
its path components is an excluded directory name. -/
def entryExcluded (excludeDirs : List String) (e : ScanEntry) : Bool :=
  e.parts.any (fun p => excludeDirs.contains p)

/-- Body of a scanning loop over glob results (`code_act_agent.py` lines
138-156 and the analogous `css_analyze_agent.py` lines 175-192): excluded
entries are skipped, readable entries are collected as
(relative path, content) pairs, and an entry whose read raises is logged
as a warning and skipped (`continue`). -/
def scanReadable (excludeDirs : List String) :
    List ScanEntry → List (String × String)
  | [] => []
  | e :: rest =>
    if entryExcluded excludeDirs e then scanReadable excludeDirs rest
    else
      match e.content with
      | some c => (e.relPath, c) :: scanReadable excludeDirs rest
      | none => scanReadable excludeDirs rest

/-- Function `_scan_frontend_files` (`code_act_agent.py` lines 107-162):
`entries` are the tsx/jsx/html files met by the three `rglob` passes, in
glob order; when no file could be collected `CodeActFileNotFoundError`
(modelled as `Except.error` carrying the directory path) is raised. -/
def scan_frontend_files (directoryPath : String) (entries : List ScanEntry) :
    Except String (List (String × String)) :=
  let files := scanReadable frontendExcludeDirs entries
  if files.isEmpty then .error directoryPath else .ok files

/-- Per-file result of `_process_single_file`: the model
`ThemeExtractionInstructionResult` of `code_act_agent.py` lines 63-81. -/
structure ThemeExtractionInstructionResult where
  file_path : String
  modified_file_content : String
  main_css_change_instructions : String
deriving DecidableEq, Repr

/-- Error messages collected by the `as_completed` loop of
`code_act_agent.py` lines 527-536: one message per failed per-file task,
in completion order, each naming the file it failed for. -/
def codeActErrorMessages
    (process : String × String → Except String ThemeExtractionInstructionResult)
    (completionOrder : List (String × String)) : List String :=
  completionOrder.filterMap fun f =>
    match process f with
    | .error e =>
      some ("Concurrent processing failed for file " ++ f.1 ++ ": " ++ e)
    | .ok _ => none

/-- Successful per-file results collected by the same loop, in completion
order. -/
def codeActResults
    (process : String × String → Except String ThemeExtractionInstructionResult)
    (completionOrder : List (String × String)) :
    List ThemeExtractionInstructionResult :=
  completionOrder.filterMap fun f => (process f).toOption

/-- Aggregation of `code_act_agent.py` lines 547-552: every result's
instruction text labeled by its source file, joined into one blob. -/
def aggregateInstructions
    (results : List ThemeExtractionInstructionResult) : String :=
  String.intercalate "\n\n"
    (results.map fun r =>
      "File: " ++ r.file_path ++ "\n" ++ r.main_css_change_instructions ++ "\n")

/-- Observable outcome of one `code_act_agent` run: the relative paths of
the files whose futures were awaited (drained), the disk writes performed
in order (path, content), and the returned value or raised error. -/
structure CodeActOutcome where
  drained : List String
  writes : List (String × String)
  result : Except String Unit
deriving Repr

/-- Function `code_act_agent` (`code_act_agent.py` lines 455-580) for a
frontend project with an existing directory, from the scan on.  External
collaborators: `readMainCss` models the read of the main stylesheet (once,
before fan-out, lines 498-505); `completionOrder` is the order in which
`as_completed` yields the per-file futures (a permutation of the submitted
files); `process` models `_process_single_file`; `finalMerge` models
`_generate_final_main_css` applied to the snapshot content and the
aggregated instructions.  The loop drains every future (lines 527-536),
then raises the aggregate of all error messages if any task failed (lines
538-540) — before any write; otherwise all modified files are written
(lines 542-545), the merge call runs and its output is written over the
main stylesheet exactly once (lines 554-561). -/
def code_act_agent (dirPath mainCssRelPath : String)
    (entries : List ScanEntry) (readMainCss : Except String String)
    (completionOrder : List (String × String))
    (process : String × String → Except String ThemeExtractionInstructionResult)
    (finalMerge : String → String → Except String String) : CodeActOutcome :=
  match scan_frontend_files dirPath entries with
  | .error d =>
    { drained := [], writes := [],
      result := .error ("No frontend files (tsx/jsx/html) found in directory: " ++ d) }
  | .ok _files =>
    match readMainCss with
    | .error e =>
      { drained := [], writes := [],
        result := .error ("Cannot read main CSS file: " ++ e) }
    | .ok mainCssContent =>
      let drained := completionOrder.map Prod.fst
      let errors := codeActErrorMessages process completionOrder
      let results := codeActResults process completionOrder
      if errors.isEmpty then
        let fileWrites := results.map fun r =>
          (dirPath ++ "/" ++ r.file_path, r.modified_file_content)
        match finalMerge mainCssContent (aggregateInstructions results) with
        | .error e =>
          { drained := drained, writes := fileWrites, result := .error e }
        | .ok mergedCss =>
          { drained := drained,
            writes := fileWrites ++ [(dirPath ++ "/" ++ mainCssRelPath, mergedCss)],
            result := .ok () }
      else
        { drained := drained, writes := [],
          result := .error (String.intercalate "; " errors) }

theorem scanReadable_mem (ex : List String) (entries : List ScanEntry)
    (p c : String) (h : (p, c) ∈ scanReadable ex entries) :
    ∃ e ∈ entries, entryExcluded ex e = false ∧
      e.relPath = p ∧ e.content = some c := by
  induction entries with
  | nil => simp [scanReadable] at h
  | cons e rest ih =>
    by_cases hex : entryExcluded ex e = true
    · rw [scanReadable, if_pos hex] at h
      obtain ⟨x, hx, hprop⟩ := ih h
      exact ⟨x, List.mem_cons_of_mem e hx, hprop⟩
    · rw [scanReadable, if_neg hex] at h
      cases hc : e.content with
      | none =>
        rw [hc] at h
        obtain ⟨x, hx, hprop⟩ := ih h
        exact ⟨x, List.mem_cons_of_mem e hx, hprop⟩
      | some c0 =>
        rw [hc] at h
        rcases List.mem_cons.mp h with h1 | h1
        · refine ⟨e, List.mem_cons_self e rest,
            Bool.eq_false_iff.mpr hex, ?_, ?_⟩
          · exact congrArg Prod.fst h1.symm
          · rw [hc]; exact congrArg (Option.some ∘ Prod.snd) h1.symm
        · obtain ⟨x, hx, hprop⟩ := ih h1
          exact ⟨x, List.mem_cons_of_mem e hx, hprop⟩

theorem scanReadable_eq_nil_iff (ex : List String) (entries : List ScanEntry) :
    scanReadable ex entries = [] ↔
      ∀ e ∈ entries, entryExcluded ex e = false → e.content = none := by
  induction entries with
  | nil => simp [scanReadable]
  | cons e rest ih =>
    by_cases hex : entryExcluded ex e = true
    · rw [scanReadable, if_pos hex, ih]
      constructor
      · intro h x hx hxe
        rcases List.mem_cons.mp hx with h1 | h1
        · rw [h1] at hxe; rw [hxe] at hex; exact absurd hex (by simp)
        · exact h x h1 hxe
      · intro h x hx hxe
        exact h x (List.mem_cons_of_mem e hx) hxe
    · rw [scanReadable, if_neg hex]
      cases hc : e.content with
      | none =>
        rw [ih]
        constructor
        · intro h x hx hxe
          rcases List.mem_cons.mp hx with h1 | h1
          · rw [h1]; exact hc
          · exact h x h1 hxe
        · intro h x hx hxe
          exact h x (List.mem_cons_of_mem e hx) hxe
      | some c =>
        simp only [List.cons_ne_nil, false_iff]
        intro h
        have := h e (List.mem_cons_self e rest) (Bool.eq_false_iff.mpr hex)
        rw [hc] at this
        exact Option.some_ne_none c this

/-- Claim C10: during frontend-file scanning, a frontend file that exists
but cannot be read is skipped (every collected pair comes from a readable,
non-excluded entry), the file-not-found error is raised exactly when every
non-excluded entry is unreadable, and a directory containing only
unreadable frontend files is treated the same as one containing none. -/
theorem C10_unreadable_files_skipped (dir : String)
    (entries : List ScanEntry) :
    (∀ p c, (p, c) ∈ scanReadable frontendExcludeDirs entries →
        ∃ e ∈ entries, entryExcluded frontendExcludeDirs e = false ∧
          e.relPath = p ∧ e.content = some c) ∧
    (scan_frontend_files dir entries = .error dir ↔
        ∀ e ∈ entries, entryExcluded frontendExcludeDirs e = false →
          e.content = none) ∧
    ((∀ e ∈ entries, e.content = none) →
        scan_frontend_files dir entries = scan_frontend_files dir []) := by
  refine ⟨fun p c h => scanReadable_mem frontendExcludeDirs entries p c h,
    ?_, ?_⟩
  · unfold scan_frontend_files
    rw [← scanReadable_eq_nil_iff frontendExcludeDirs entries]
    cases hs : scanReadable frontendExcludeDirs entries with
    | nil => simp
    | cons a l => simp
  · intro h
    have hnil : scanReadable frontendExcludeDirs entries = [] :=
      (scanReadable_eq_nil_iff frontendExcludeDirs entries).mpr
        (fun e he _ => h e he)
    unfold scan_frontend_files
    rw [hnil]
    rfl

/-- Witness for C10: a directory whose only frontend file is unreadable
raises the same file-not-found error as an empty one. -/
theorem C10_unreadable_files_skipped_witness :
    scan_frontend_files "proj"
        [⟨"src/App.tsx", ["src", "App.tsx"], none⟩] =
      scan_frontend_files "proj" [] :=
  (C10_unreadable_files_skipped "proj"
      [⟨"src/App.tsx", ["src", "App.tsx"], none⟩]).2.2 (by decide)

theorem codeActErrorMessages_mem
    (process : String × String → Except String ThemeExtractionInstructionResult)
    (completionOrder : List (String × String)) (f : String × String)
    (e : String) (hf : f ∈ completionOrder) (he : process f = .error e) :
    ("Concurrent processing failed for file " ++ f.1 ++ ": " ++ e) ∈
      codeActErrorMessages process completionOrder := by
  unfold codeActErrorMessages
  exact List.mem_filterMap.mpr ⟨f, hf, by rw [he]⟩

theorem code_act_agent_error_case (dirPath mainCssRelPath : String)
    (entries : List ScanEntry) (css : String)
    (completionOrder : List (String × String))
    (process : String × String → Except String ThemeExtractionInstructionResult)
    (finalMerge : String → String → Except String String)
    (hscan : scanReadable frontendExcludeDirs entries ≠ [])
    (herr : codeActErrorMessages process completionOrder ≠ []) :
    code_act_agent dirPath mainCssRelPath entries (.ok css) completionOrder
        process finalMerge =
      { drained := completionOrder.map Prod.fst, writes := [],
        result := .error (String.intercalate "; "
          (codeActErrorMessages process completionOrder)) } := by
  unfold code_act_agent scan_frontend_files
  rw [if_neg (by simp [hscan])]
  simp only []
  rw [if_neg (by simp [herr])]

theorem code_act_agent_ok_case (dirPath mainCssRelPath : String)
    (entries : List ScanEntry) (css merged : String)
    (completionOrder : List (String × String))
    (process : String × String → Except String ThemeExtractionInstructionResult)
    (finalMerge : String → String → Except String String)
    (hscan : scanReadable frontendExcludeDirs entries ≠ [])
    (herr : codeActErrorMessages process completionOrder = [])
    (hmerge : finalMerge css
        (aggregateInstructions (codeActResults process completionOrder)) =
      .ok merged) :
    code_act_agent dirPath mainCssRelPath entries (.ok css) completionOrder
        process finalMerge =
      { drained := completionOrder.map Prod.fst,
        writes :=
          (codeActResults process completionOrder).map (fun r =>
            (dirPath ++ "/" ++ r.file_path, r.modified_file_content)) ++
          [(dirPath ++ "/" ++ mainCssRelPath, merged)],
        result := .ok () } := by
  unfold code_act_agent scan_frontend_files
  rw [if_neg (by simp [hscan])]
  simp only []
  rw [if_pos (by simp [herr]), hmerge]

/-- Claim C2: when at least one per-file task of the concurrent file
processor fails, zero modified source files are written to disk, every
submitted file's task is still drained to completion first, and the raised
aggregate exception is the join of one message per failed file — so it
references every failed file, not just the first. -/
theorem C2_single_failure_aborts_without_writes
    (dirPath mainCssRelPath : String) (entries : List ScanEntry)
    (css : String) (completionOrder : List (String × String))
    (process : String × String → Except String ThemeExtractionInstructionResult)
    (finalMerge : String → String → Except String String)
    (hperm : completionOrder.Perm (scanReadable frontendExcludeDirs entries))
    (hfail : ∃ f ∈ completionOrder, ∃ e, process f = .error e) :
    (code_act_agent dirPath mainCssRelPath entries (.ok css) completionOrder
        process finalMerge).writes = [] ∧
    (∀ f ∈ scanReadable frontendExcludeDirs entries,
      f.1 ∈ (code_act_agent dirPath mainCssRelPath entries (.ok css)
        completionOrder process finalMerge).drained) ∧
    (code_act_agent dirPath mainCssRelPath entries (.ok css) completionOrder
        process finalMerge).result =
      .error (String.intercalate "; "
        (codeActErrorMessages process completionOrder)) ∧
    (∀ f ∈ scanReadable frontendExcludeDirs entries, ∀ e,
      process f = .error e →
      ("Concurrent processing failed for file " ++ f.1 ++ ": " ++ e) ∈
        codeActErrorMessages process completionOrder) := by
  obtain ⟨f0, hf0, e0, he0⟩ := hfail
  have hscan : scanReadable frontendExcludeDirs entries ≠ [] := by
    intro hnil
    rw [hnil] at hperm
    rw [List.perm_nil.mp hperm] at hf0
    exact absurd hf0 (List.not_mem_nil f0)
  have herr : codeActErrorMessages process completionOrder ≠ [] := by
    intro hnil
    have := codeActErrorMessages_mem process completionOrder f0 e0 hf0 he0
    rw [hnil] at this
    exact absurd this (List.not_mem_nil _)
  have hcase := code_act_agent_error_case dirPath mainCssRelPath entries css
    completionOrder process finalMerge hscan herr
  rw [hcase]
  refine ⟨rfl, ?_, rfl, ?_⟩
  · intro f hf
    exact List.mem_map_of_mem Prod.fst (hperm.mem_iff.mpr hf)
  · intro f hf e he
    exact codeActErrorMessages_mem process completionOrder f e
      (hperm.mem_iff.mpr hf) he

/-- Frontend filesystem used by the C2 and C8 witnesses: two readable
frontend files. -/
def witnessEntries : List ScanEntry :=
  [⟨"src/A.tsx", ["src", "A.tsx"], some "contentA"⟩,
   ⟨"src/B.tsx", ["src", "B.tsx"], some "contentB"⟩]

/-- Per-file processor for the C2 witness: fails on `src/A.tsx`,
succeeds on everything else. -/
def c2Process (f : String × String) :
    Except String ThemeExtractionInstructionResult :=
  if f.1 == "src/A.tsx" then .error "boom"
  else .ok ⟨f.1, "modified " ++ f.2, "instructions for " ++ f.1⟩

/-- Witness for C2 at a concrete two-file project in which one task
fails. -/
theorem C2_single_failure_aborts_without_writes_witness :
    (code_act_agent "proj" "styles/main.css" witnessEntries (.ok "body")
        (scanReadable frontendExcludeDirs witnessEntries) c2Process
        (fun s i => .ok (s ++ i))).writes = [] ∧
    (∀ f ∈ scanReadable frontendExcludeDirs witnessEntries,
      f.1 ∈ (code_act_agent "proj" "styles/main.css" witnessEntries
        (.ok "body") (scanReadable frontendExcludeDirs witnessEntries)
        c2Process (fun s i => .ok (s ++ i))).drained) ∧
    (code_act_agent "proj" "styles/main.css" witnessEntries (.ok "body")
        (scanReadable frontendExcludeDirs witnessEntries) c2Process
        (fun s i => .ok (s ++ i))).result =
      .error (String.intercalate "; "
        (codeActErrorMessages c2Process
          (scanReadable frontendExcludeDirs witnessEntries))) ∧
    (∀ f ∈ scanReadable frontendExcludeDirs witnessEntries, ∀ e,
      c2Process f = .error e →
      ("Concurrent processing failed for file " ++ f.1 ++ ": " ++ e) ∈
        codeActErrorMessages c2Process
          (scanReadable frontendExcludeDirs witnessEntries)) :=
  C2_single_failure_aborts_without_writes "proj" "styles/main.css"
    witnessEntries "body" (scanReadable frontendExcludeDirs witnessEntries)
    c2Process (fun s i => .ok (s ++ i)) (List.Perm.refl _)
    ⟨("src/A.tsx", "contentA"), by decide, "boom", by rfl⟩

theorem codeActErrorMessages_eq_nil
    (process : String × String → Except String ThemeExtractionInstructionResult)
    (completionOrder : List (String × String))
    (hok : ∀ f ∈ completionOrder, ∃ r, process f = .ok r) :
    codeActErrorMessages process completionOrder = [] := by
  unfold codeActErrorMessages
  induction completionOrder with
  | nil => rfl
  | cons f rest ih =>
    obtain ⟨r, hr⟩ := hok f (List.mem_cons_self f rest)
    rw [List.filterMap_cons, hr]
    exact ih (fun x hx => hok x (List.mem_cons_of_mem f hx))

theorem codeActResults_length
    (process : String × String → Except String ThemeExtractionInstructionResult)
    (completionOrder : List (String × String))
    (hok : ∀ f ∈ completionOrder, ∃ r, process f = .ok r) :
    (codeActResults process completionOrder).length =
      completionOrder.length := by
  unfold codeActResults
  induction completionOrder with
  | nil => rfl
  | cons f rest ih =>
    obtain ⟨r, hr⟩ := hok f (List.mem_cons_self f rest)
    have hopt : (process f).toOption = some r := by rw [hr]; rfl
    rw [List.filterMap_cons, hopt]
    simp only [List.length_cons]
    rw [ih (fun x hx => hok x (List.mem_cons_of_mem f hx))]

/-- Claim C8: on the happy path of the concurrent file processor with all
N per-file tasks succeeding, the write sequence is exactly the N modified
source-file writes followed by a single final write of the merged main
stylesheet — the merged stylesheet is written exactly once, strictly after
all N per-file writes. -/
theorem C8_merge_written_once_after_all_files
    (dirPath mainCssRelPath : String) (entries : List ScanEntry)
    (css merged : String) (completionOrder : List (String × String))
    (process : String × String → Except String ThemeExtractionInstructionResult)
    (finalMerge : String → String → Except String String)
    (hperm : completionOrder.Perm (scanReadable frontendExcludeDirs entries))
    (hne : scanReadable frontendExcludeDirs entries ≠ [])
    (hok : ∀ f ∈ completionOrder, ∃ r, process f = .ok r)
    (hmerge : finalMerge css
        (aggregateInstructions (codeActResults process completionOrder)) =
      .ok merged) :
    (code_act_agent dirPath mainCssRelPath entries (.ok css) completionOrder
        process finalMerge).writes =
      (codeActResults process completionOrder).map (fun r =>
        (dirPath ++ "/" ++ r.file_path, r.modified_file_content)) ++
      [(dirPath ++ "/" ++ mainCssRelPath, merged)] ∧
    (codeActResults process completionOrder).length =
      (scanReadable frontendExcludeDirs entries).length ∧
    (code_act_agent dirPath mainCssRelPath entries (.ok css) completionOrder
        process finalMerge).result = .ok () := by
  have herr := codeActErrorMessages_eq_nil process completionOrder hok
  have hcase := code_act_agent_ok_case dirPath mainCssRelPath entries css
    merged completionOrder process finalMerge hne herr hmerge
  rw [hcase]
  refine ⟨rfl, ?_, rfl⟩
  rw [codeActResults_length process completionOrder hok]
  exact hperm.length_eq

/-- Per-file processor for the C8 witness: succeeds on every file. -/
def c8Process (f : String × String) :
    Except String ThemeExtractionInstructionResult :=
  .ok ⟨f.1, "modified " ++ f.2, "instructions for " ++ f.1⟩

/-- Witness for C8 at a concrete two-file project in which every task
succeeds. -/
theorem C8_merge_written_once_after_all_files_witness :
    (code_act_agent "proj" "styles/main.css" witnessEntries (.ok "body")
        (scanReadable frontendExcludeDirs witnessEntries) c8Process
        (fun s i => .ok (s ++ i))).writes =
      (codeActResults c8Process
          (scanReadable frontendExcludeDirs witnessEntries)).map (fun r =>
        ("proj" ++ "/" ++ r.file_path, r.modified_file_content)) ++
      [("proj" ++ "/" ++ "styles/main.css",
        "body" ++ aggregateInstructions (codeActResults c8Process
          (scanReadable frontendExcludeDirs witnessEntries)))] ∧
    (codeActResults c8Process
        (scanReadable frontendExcludeDirs witnessEntries)).length =
      (scanReadable frontendExcludeDirs witnessEntries).length ∧
    (code_act_agent "proj" "styles/main.css" witnessEntries (.ok "body")
        (scanReadable frontendExcludeDirs witnessEntries) c8Process
        (fun s i => .ok (s ++ i))).result = .ok () :=
  C8_merge_written_once_after_all_files "proj" "styles/main.css"
    witnessEntries "body"
    ("body" ++ aggregateInstructions (codeActResults c8Process
      (scanReadable frontendExcludeDirs witnessEntries)))
    (scanReadable frontendExcludeDirs witnessEntries) c8Process
    (fun s i => .ok (s ++ i)) (List.Perm.refl _) (by decide)
    (fun f _ => ⟨⟨f.1, "modified " ++ f.2, "instructions for " ++ f.1⟩, rfl⟩)
    rfl

/-! ## Project analysis and orchestrator: `code_analyze_agent.py`,
`main.py` -/

/-- Model `FrontendProjectAnalysis` of `code_analyze_agent.py` lines
41-69. -/
structure FrontendProjectAnalysis where
  is_frontend_project : Bool
  start_command : String
  build_command : String
  ui_frameworks_info : String
deriving DecidableEq, Repr

/-- Error kinds that can escape the orchestrator `MainWorkflow.main`.
`packageJsonNotFoundError` models `PackageJsonNotFoundError` carrying the
directory path (`code_analyze_agent.py` lines 33-38); `genericError`
models a bare `Exception` with its message; the remaining constructors
model the other named stage exception classes caught at `main.py` line
581. -/
inductive WorkflowError where
  | valueError (msg : String)
  | gitCloneError (msg : String)
  | packageJsonNotFoundError (dir : String)
  | initError (msg : String)
  | cssFileNotFoundError (dir : String)
  | codeActFileNotFoundError (dir : String)
  | npmInstallError (dir msg : String)
  | buildMaxIterationsError (maxIterations : Nat)
  | fileCopyError (msg : String)
  | cssThemeFileNotFoundError (path : String)
  | themeJsonWriteError (path msg : String)
  | cssFileReadError (path msg : String)
  | themesDirectoryError (dir msg : String)
  | themeGenerationError (msg : String)
  | portKillError (port : Nat) (msg : String)
  | devServerStartError (msg : String)
  | genericError (msg : String)
deriving DecidableEq, Repr

/-- Filesystem state consulted by `code_analyze_agent`: whether the
project directory exists and whether it holds a readable
`package.json`. -/
structure AnalyzeFs where
  dirExists : Bool
  packageJsonExists : Bool
  packageJsonContent : String
deriving DecidableEq, Repr

/-- Function `code_analyze_agent` (`code_analyze_agent.py` lines 72-229):
a missing directory or missing `package.json` raises
`PackageJsonNotFoundError` carrying the directory path (lines 100-108);
otherwise the manifest content goes to the LLM service, whose failure is
wrapped into a generic error (lines 227-229). -/
def code_analyze_agent (directoryPath : String) (fs : AnalyzeFs)
    (llm : String → Except String FrontendProjectAnalysis) :
    Except WorkflowError FrontendProjectAnalysis :=
  if fs.dirExists = false then
    .error (.packageJsonNotFoundError directoryPath)
  else if fs.packageJsonExists = false then
    .error (.packageJsonNotFoundError directoryPath)
  else
    match llm fs.packageJsonContent with
    | .error e => .error (.genericError ("Code analysis failed: " ++ e))
    | .ok a => .ok a

/-- Stage method `MainWorkflow._analyze_project` (`main.py` lines
99-145): a caught `PackageJsonNotFoundError` is replaced by a NEW generic
`Exception` with the message below (lines 117-119); other exceptions are
re-raised unchanged; a non-frontend analysis result raises a generic
error (lines 125-127). -/
def analyze_project (clonedPath : String) (fs : AnalyzeFs)
    (llm : String → Except String FrontendProjectAnalysis) :
    Except WorkflowError FrontendProjectAnalysis :=
  match code_analyze_agent clonedPath fs llm with
  | .error (.packageJsonNotFoundError _) =>
    .error (.genericError "Frontend projects must have a package.json file")
  | .error e => .error e
  | .ok a =>
    if a.is_frontend_project = false then
      .error (.genericError "This workflow only supports frontend projects")
    else .ok a

/-- Completed stages of one orchestrator run, recorded in order.
`initialized` carries the themes-directory path created by
`code_init_agent` — it is the only stage that creates theme
directories. -/
inductive StageEvent where
  | validated : StageEvent
  | cloned (path : String) : StageEvent
  | analyzed : StageEvent
  | initialized (themesDirectoryPath : String) : StageEvent
  | cssAnalyzed (mainCssPath : String) : StageEvent
  | themeProcessed : StageEvent
  | depsInstalled : StageEvent
  | built : StageEvent
  | cssBackedUp (backupPath : String) : StageEvent
  | summaryGenerated : StageEvent
  | themesGenerated : StageEvent
  | devServerStarted (hostname : String) (port : Nat) : StageEvent
deriving DecidableEq, Repr

/-- External-collaborator outcomes for one orchestrator run.  Each later
stage (4-12) is a call into its agent whose outcome the orchestrator
receives either as a result or as a raised stage error that the stage
method re-raises (`main.py` lines 147-508); the analysis stage is modelled
precisely by `analyze_project` because its exception translation is the
behavior under study. -/
structure WorkflowEnv where
  githubRepoUrl : String
  cloneResult : Except String String
  analyzeFs : AnalyzeFs
  analyzeLlm : String → Except String FrontendProjectAnalysis
  initResult : Except WorkflowError String
  cssAnalyzeResult : Except WorkflowError String
  themeProcessResult : Except WorkflowError Unit
  installResult : Except WorkflowError Unit
  buildResult : Except WorkflowError Unit
  backupResult : Except WorkflowError String
  summaryResult : Except WorkflowError Unit
  themeGenResult : Except WorkflowError Unit
  devServerResult : Except WorkflowError (String × Nat)

/-- Orchestrator `MainWorkflow.main` (`main.py` lines 510-593): a strict
linear pipeline of 12 stages, each stage's exception aborting the
remaining stages; stage errors pass through the `except` clauses at lines
581-593 unchanged.  The returned event list records the stages completed
before the run returned or aborted. -/
def mainWorkflow (env : WorkflowEnv) : Except WorkflowError Unit × List StageEvent :=
  if env.githubRepoUrl = "" then
    (.error (.valueError "GitHub repository URL must be a non-empty string"), [])
  else
    match env.cloneResult with
    | .error e => (.error (.gitCloneError e), [.validated])
    | .ok clonedPath =>
      match analyze_project clonedPath env.analyzeFs env.analyzeLlm with
      | .error e => (.error e, [.validated, .cloned clonedPath])
      | .ok _analysis =>
        match env.initResult with
        | .error e => (.error e, [.validated, .cloned clonedPath, .analyzed])
        | .ok themesDir =>
          let t0 : List StageEvent :=
            [.validated, .cloned clonedPath, .analyzed, .initialized themesDir]
          match env.cssAnalyzeResult with
          | .error e => (.error e, t0)
          | .ok mainCssPath =>
            let t1 := t0 ++ [StageEvent.cssAnalyzed mainCssPath]
            match env.themeProcessResult with
            | .error e => (.error e, t1)
            | .ok _ =>
              let t2 := t1 ++ [StageEvent.themeProcessed]
              match env.installResult with
              | .error e => (.error e, t2)
              | .ok _ =>
                let t3 := t2 ++ [StageEvent.depsInstalled]
                match env.buildResult with
                | .error e => (.error e, t3)
                | .ok _ =>
                  let t4 := t3 ++ [StageEvent.built]
                  match env.backupResult with
                  | .error e => (.error e, t4)
                  | .ok backupPath =>
                    let t5 := t4 ++ [StageEvent.cssBackedUp backupPath]
                    match env.summaryResult with
                    | .error e => (.error e, t5)
                    | .ok _ =>
                      let t6 := t5 ++ [StageEvent.summaryGenerated]
                      match env.themeGenResult with
                      | .error e => (.error e, t6)
                      | .ok _ =>
                        let t7 := t6 ++ [StageEvent.themesGenerated]
                        match env.devServerResult with
                        | .error e => (.error e, t7)
                        | .ok info =>
                          (.ok (),
                            t7 ++ [StageEvent.devServerStarted info.1 info.2])

/-- Environment for the C4 counterexample and witness: a valid URL and a
successful clone of a project directory that exists but holds no
`package.json`; all later-stage collaborators would succeed. -/
def c4Env : WorkflowEnv :=
  { githubRepoUrl := "https://github.com/user/repo.git"
    cloneResult := .ok "workspace/repo"
    analyzeFs := ⟨true, false, ""⟩
    analyzeLlm := fun _ => .error "not consulted"
    initResult := .ok "workspace/repo/.design/themes"
    cssAnalyzeResult := .ok "styles/main.css"
    themeProcessResult := .ok ()
    installResult := .ok ()
    buildResult := .ok ()
    backupResult := .ok "original.css"
    summaryResult := .ok ()
    themeGenResult := .ok ()
    devServerResult := .ok ("0.0.0.0", 3000) }

/-- Counterexample to claim C4: for a project lacking `package.json`, the
analysis stage does raise `PackageJsonNotFoundError`, but the orchestrator
does NOT re-raise that caught stage error unchanged — `_analyze_project`
(`main.py` lines 117-119) replaces it by a new generic exception, so the
error escaping the run differs from the stage error. -/
theorem C4_counterexample :
    code_analyze_agent "workspace/repo" c4Env.analyzeFs c4Env.analyzeLlm =
      .error (.packageJsonNotFoundError "workspace/repo") ∧
    (mainWorkflow c4Env).1 =
      .error (.genericError "Frontend projects must have a package.json file") ∧
    (mainWorkflow c4Env).1 ≠
      .error (.packageJsonNotFoundError "workspace/repo") ∧
    (mainWorkflow c4Env).2 = [.validated, .cloned "workspace/repo"] :=
  ⟨rfl, rfl,
    fun h => WorkflowError.noConfusion (Except.error.inj h), rfl⟩

/-- Claim C4 as amended: for every project directory lacking a
`package.json` manifest, the analysis stage raises the distinct
manifest-not-found error kind (`PackageJsonNotFoundError`), and the
orchestrator catches it, replaces it with a generic error stating that
frontend projects must have a `package.json` file (rather than re-raising
the original error unchanged), and aborts before creating any theme
directories. -/
theorem C4_manifest_error_replaced (env : WorkflowEnv) (p : String)
    (hurl : ¬ env.githubRepoUrl = "")
    (hclone : env.cloneResult = .ok p)
    (hpkg : env.analyzeFs.packageJsonExists = false) :
    code_analyze_agent p env.analyzeFs env.analyzeLlm =
      .error (.packageJsonNotFoundError p) ∧
    (mainWorkflow env).1 =
      .error (.genericError "Frontend projects must have a package.json file") ∧
    (mainWorkflow env).2 = [.validated, .cloned p] ∧
    (∀ d, StageEvent.initialized d ∉ (mainWorkflow env).2) := by
  have hagent : code_analyze_agent p env.analyzeFs env.analyzeLlm =
      .error (.packageJsonNotFoundError p) := by
    unfold code_analyze_agent
    by_cases hd : env.analyzeFs.dirExists = false
    · rw [if_pos hd]
    · rw [if_neg hd, if_pos hpkg]
  have hstage : analyze_project p env.analyzeFs env.analyzeLlm =
      .error (.genericError "Frontend projects must have a package.json file") := by
    unfold analyze_project
    rw [hagent]
  have hmain : mainWorkflow env =
      (.error (.genericError "Frontend projects must have a package.json file"),
        [.validated, .cloned p]) := by
    unfold mainWorkflow
    rw [if_neg hurl, hclone]
    simp only []
    rw [hstage]
  refine ⟨hagent, ?_, ?_, ?_⟩
  · rw [hmain]
  · rw [hmain]
  · intro d
    rw [hmain]
    simp

/-- Witness for the amended C4 at the concrete environment `c4Env`. -/
theorem C4_manifest_error_replaced_witness :
    code_analyze_agent "workspace/repo" c4Env.analyzeFs c4Env.analyzeLlm =
      .error (.packageJsonNotFoundError "workspace/repo") ∧
    (mainWorkflow c4Env).1 =
      .error (.genericError "Frontend projects must have a package.json file") ∧
    (mainWorkflow c4Env).2 = [.validated, .cloned "workspace/repo"] ∧
    (∀ d, StageEvent.initialized d ∉ (mainWorkflow c4Env).2) :=
  C4_manifest_error_replaced c4Env "workspace/repo" (by decide) rfl rfl

/-! ## Dev-server start stage -/

/-- Model `DevServerInfo`: hostname and port of the background dev
server. -/
structure DevServerInfo where
  hostname : String
  port : Nat
deriving DecidableEq, Repr

/-- Observable actions of the dev-server-start stage: forcibly
terminating the process occupying the target port, and binding/starting
the server. -/
inductive DevEvent where
  | killedOccupant (port : Nat) : DevEvent
  | serverStarted (hostname : String) (port : Nat) : DevEvent
deriving DecidableEq, Repr

/-- Modelled from the spec: the function `code_run_start_dev_server` (and
with it `PortKillError`, `DevServerStartError`, `DevServerInfo`) is
imported by `workflow/service/main.py` lines 19-28 from
`workflow.service.code_run_agent` but is absent from the source tree.
Per the spec, the stage binds the dev server to a caller-supplied
hostname/port; if the port is occupied by a foreign process, that process
is forcibly terminated before the server is started, and a distinct
port-kill-failed error (`PortKillError`, not a generic start/bind error)
is raised if the termination itself fails.  The booleans model the
external-process outcomes: whether the port is occupied, whether killing
the occupant succeeds, and whether the server start succeeds. -/
def code_run_start_dev_server (startCommand hostname : String) (port : Nat)
    (portOccupied killSucceeds startSucceeds : Bool) :
    Except WorkflowError DevServerInfo × List DevEvent :=
  if portOccupied then
    if killSucceeds then
      if startSucceeds then
        (.ok ⟨hostname, port⟩,
          [.killedOccupant port, .serverStarted hostname port])
      else
        (.error (.devServerStartError startCommand), [.killedOccupant port])
    else
      (.error (.portKillError port "Failed to kill process occupying port"), [])
  else
    if startSucceeds then
      (.ok ⟨hostname, port⟩, [.serverStarted hostname port])
    else
      (.error (.devServerStartError startCommand), [])

/-- Stage method `MainWorkflow._start_development_server` (`main.py` lines
454-508): a missing start command raises a generic exception; otherwise
the call is delegated and `PortKillError` / `DevServerStartError` are
re-raised unchanged (lines 503-505). -/
def start_development_server (startCommand hostname : String) (port : Nat)
    (portOccupied killSucceeds startSucceeds : Bool) :
    Except WorkflowError DevServerInfo × List DevEvent :=
  if startCommand = "" then
    (.error (.genericError "No start command available for this project"), [])
  else
    code_run_start_dev_server startCommand hostname port
      portOccupied killSucceeds startSucceeds

/-- Claim C5: when the target port is occupied by a foreign process, the
dev-server-start stage terminates that process before attempting to bind
(every recorded server start is preceded by the kill of the occupant),
and when that termination itself fails it raises the distinct
`PortKillError` — never the generic dev-server start error. -/
theorem C5_port_kill_before_bind (startCommand hostname : String)
    (port : Nat) (killSucceeds startSucceeds : Bool)
    (hcmd : ¬ startCommand = "") :
    ((start_development_server startCommand hostname port true killSucceeds
        startSucceeds).2.head? = some (.killedOccupant port) ∨
      (start_development_server startCommand hostname port true killSucceeds
        startSucceeds).1 =
        .error (.portKillError port "Failed to kill process occupying port")) ∧
    (killSucceeds = false →
      (start_development_server startCommand hostname port true killSucceeds
          startSucceeds).1 =
        .error (.portKillError port "Failed to kill process occupying port") ∧
      (∀ m, (start_development_server startCommand hostname port true
          killSucceeds startSucceeds).1 ≠
        .error (.devServerStartError m)) ∧
      (∀ h0 p0, DevEvent.serverStarted h0 p0 ∉
        (start_development_server startCommand hostname port true killSucceeds
          startSucceeds).2)) := by
  unfold start_development_server code_run_start_dev_server
  rw [if_neg hcmd]
  cases killSucceeds with
  | false =>
    refine ⟨Or.inr rfl, fun _ => ⟨rfl, ?_, ?_⟩⟩
    · intro m h
      exact WorkflowError.noConfusion (Except.error.inj h)
    · intro h0 p0
      show DevEvent.serverStarted h0 p0 ∉ ([] : List DevEvent)
      exact List.not_mem_nil _
  | true =>
    cases startSucceeds with
    | false => simp
    | true => simp

/-- Witness for C5: with an occupied port and a failing kill, the stage
raises `PortKillError` and never starts the server. -/
theorem C5_port_kill_before_bind_witness :
    (start_development_server "npm run dev" "0.0.0.0" 3000 true false
        true).1 =
      .error (.portKillError 3000 "Failed to kill process occupying port") ∧
    (∀ m, (start_development_server "npm run dev" "0.0.0.0" 3000 true false
        true).1 ≠ .error (.devServerStartError m)) ∧
    (∀ h0 p0, DevEvent.serverStarted h0 p0 ∉
      (start_development_server "npm run dev" "0.0.0.0" 3000 true false
        true).2) :=
  (C5_port_kill_before_bind "npm run dev" "0.0.0.0" 3000 false true
    (by decide)).2 rfl

/-! ## Theme generation: `css_generator_agent.py` -/

/-- Model `GeneratedTheme` (`css_generator_agent.py` lines 129-153) with
its `theme_description` dictionary flattened into the `title` and
`representative_colors` fields required by the strict response schema
(lines 270-287). -/
structure GeneratedTheme where
  filename : String
  css_content : String
  title : String
  representative_colors : List String
deriving DecidableEq, Repr

/-- One file written by `_write_theme_files`: a `<name>.css` write with
the theme's CSS content, or a `<name>.json` write carrying the serialized
theme description (title and representative colors). -/
inductive ThemeWrite where
  | cssFile (name content : String) : ThemeWrite
  | jsonFile (name title : String) (colors : List String) : ThemeWrite
deriving DecidableEq, Repr

/-- Function `_write_theme_files` (`css_generator_agent.py` lines
403-442): for each generated theme, in order, the `<filename>.css` file is
written then the `<filename>.json` sidecar. -/
def write_theme_files (generatedThemes : List GeneratedTheme) :
    List ThemeWrite :=
  generatedThemes.flatMap fun t =>
    [.cssFile (t.filename ++ ".css") t.css_content,
     .jsonFile (t.filename ++ ".json") t.title t.representative_colors]

/-- Function `_generate_new_themes` (`css_generator_agent.py` lines
227-400): any LLM or parse failure is wrapped into
`ThemeGenerationError`; a validated response yields the list of generated
themes. -/
def generate_new_themes (llmResult : Except String (List GeneratedTheme)) :
    Except WorkflowError (List GeneratedTheme) :=
  match llmResult with
  | .error e => .error (.themeGenerationError e)
  | .ok ts => .ok ts

/-- Request-side constraint of the theme-generation call: the strict JSON
schema sent with the request fixes `generated_themes` to `minItems = 5`
and `maxItems = 5` (`css_generator_agent.py` lines 292-293), so a
structured-output response conforming to the request schema carries
exactly 5 themes. -/
def themeGenerationSchemaOk (ts : List GeneratedTheme) : Bool :=
  ts.length == 5

/-- Function `css_generator_agent` (`css_generator_agent.py` lines
445-508): a missing or unreadable original CSS file raises
`CssFileReadError`; a themes-directory scan failure raises
`ThemesDirectoryError` (propagated via `scanResult`); otherwise the
generation call runs and the generated theme files are written. -/
def css_generator_agent (originalCssFilePath : String)
    (originalCssContent : Option String)
    (scanResult : Except WorkflowError (List String))
    (llmResult : Except String (List GeneratedTheme)) :
    Except WorkflowError (List ThemeWrite) :=
  match originalCssContent with
  | none => .error (.cssFileReadError originalCssFilePath "File not found")
  | some _content =>
    match scanResult with
    | .error e => .error e
    | .ok _existing =>
      match generate_new_themes llmResult with
      | .error e => .error e
      | .ok ts => .ok (write_theme_files ts)

/-- Recognizer for `.css` writes among theme-file writes. -/
def isCssThemeWrite : ThemeWrite → Bool
  | .cssFile _ _ => true
  | .jsonFile _ _ _ => false

theorem write_theme_files_css_count (ts : List GeneratedTheme) :
    ((write_theme_files ts).filter isCssThemeWrite).length = ts.length := by
  induction ts with
  | nil => rfl
  | cons t rest ih =>
    simp only [write_theme_files, List.flatMap_cons, List.filter_append]
    rw [List.length_append]
    have h1 : (List.filter isCssThemeWrite
        [ThemeWrite.cssFile (t.filename ++ ".css") t.css_content,
         ThemeWrite.jsonFile (t.filename ++ ".json") t.title
           t.representative_colors]).length = 1 := rfl
    rw [h1]
    simp only [write_theme_files] at ih
    rw [ih]
    simp [Nat.add_comm]

theorem write_theme_files_json_count (ts : List GeneratedTheme) :
    ((write_theme_files ts).filter
      (fun w => !(isCssThemeWrite w))).length = ts.length := by
  induction ts with
  | nil => rfl
  | cons t rest ih =>
    simp only [write_theme_files, List.flatMap_cons, List.filter_append]
    rw [List.length_append]
    have h1 : (List.filter (fun w => !(isCssThemeWrite w))
        [ThemeWrite.cssFile (t.filename ++ ".css") t.css_content,
         ThemeWrite.jsonFile (t.filename ++ ".json") t.title
           t.representative_colors]).length = 1 := rfl
    rw [h1]
    simp only [write_theme_files] at ih
    rw [ih]
    simp [Nat.add_comm]

/-- Claim C6: for every successful theme-generation call whose LLM
response conforms to the request's strict schema (which fixes the theme
count to exactly 5), exactly 5 `GeneratedTheme` records are produced and
persisted as exactly 5 `<name>.css` writes paired with 5 `<name>.json`
writes, one pair per theme. -/
theorem C6_exactly_five_theme_pairs (path content : String)
    (existing : List String) (ts : List GeneratedTheme)
    (hschema : themeGenerationSchemaOk ts = true) :
    css_generator_agent path (some content) (.ok existing) (.ok ts) =
      .ok (write_theme_files ts) ∧
    ts.length = 5 ∧
    ((write_theme_files ts).filter isCssThemeWrite).length = 5 ∧
    ((write_theme_files ts).filter
      (fun w => !(isCssThemeWrite w))).length = 5 ∧
    (∀ t ∈ ts,
      ThemeWrite.cssFile (t.filename ++ ".css") t.css_content ∈
        write_theme_files ts ∧
      ThemeWrite.jsonFile (t.filename ++ ".json") t.title
          t.representative_colors ∈
        write_theme_files ts) := by
  have hlen : ts.length = 5 := by
    have := of_decide_eq_true (by simpa [themeGenerationSchemaOk] using hschema)
    exact this
  refine ⟨rfl, hlen, ?_, ?_, ?_⟩
  · rw [write_theme_files_css_count, hlen]
  · rw [write_theme_files_json_count, hlen]
  · intro t ht
    constructor
    · exact List.mem_flatMap.mpr ⟨t, ht, by simp⟩
    · exact List.mem_flatMap.mpr ⟨t, ht, by simp⟩

/-- Five concrete generated themes for the C6 witness. -/
def c6Themes : List GeneratedTheme :=
  [⟨"coral_sunset", "a", "Coral Sunset", ["#ff7f50"]⟩,
   ⟨"emerald_forest", "b", "Emerald Forest", ["#2ecc71"]⟩,
   ⟨"royal_purple", "c", "Royal Purple", ["#6a0dad"]⟩,
   ⟨"arctic_ice", "d", "Arctic Ice", ["#b0e0e6"]⟩,
   ⟨"golden_hour", "e", "Golden Hour", ["#ffd700"]⟩]

/-- Witness for C6 at a concrete five-theme response. -/
theorem C6_exactly_five_theme_pairs_witness :
    css_generator_agent "themes/original.css" (some "body") (.ok [])
        (.ok c6Themes) =
      .ok (write_theme_files c6Themes) ∧
    c6Themes.length = 5 ∧
    ((write_theme_files c6Themes).filter isCssThemeWrite).length = 5 ∧
    ((write_theme_files c6Themes).filter
      (fun w => !(isCssThemeWrite w))).length = 5 ∧
    (∀ t ∈ c6Themes,
      ThemeWrite.cssFile (t.filename ++ ".css") t.css_content ∈
        write_theme_files c6Themes ∧
      ThemeWrite.jsonFile (t.filename ++ ".json") t.title
          t.representative_colors ∈
        write_theme_files c6Themes) :=
  C6_exactly_five_theme_pairs "themes/original.css" "body" [] c6Themes
    (by decide)

/-! ## Main-stylesheet identification: `css_analyze_agent.py` -/

/-- Directories excluded by `_scan_css_files`
(`css_analyze_agent.py` lines 169-172). -/
def cssExcludeDirs : List String :=
  ["node_modules", ".git", ".next", "dist", "build",
   "__pycache__", ".vscode", ".idea", "coverage"]

/-- Model `CssAnalysisResult` (`css_analyze_agent.py` lines 105-121):
only the main CSS path is kept; content is re-read from disk by
consumers. -/
structure CssAnalysisResult where
  main_css_path : String
deriving DecidableEq, Repr

/-- Function `_scan_css_files` (`css_analyze_agent.py` lines 147-198):
`entries` are the files met by `rglob` over `*.css`; an empty collection
raises `CssFileNotFoundError` carrying the directory path. -/
def scan_css_files (directoryPath : String) (entries : List ScanEntry) :
    Except String (List (String × String)) :=
  let files := scanReadable cssExcludeDirs entries
  if files.isEmpty then .error directoryPath else .ok files

/-- Membership loop of `css_analyze_agent.py` lines 330-335: walk the
scanned paths and flag whether one equals the LLM-chosen main CSS
path. -/
def pathFound (paths : List String) (p : String) : Bool :=
  paths.any fun q => q == p

theorem pathFound_iff (paths : List String) (p : String) :
    pathFound paths p = true ↔ p ∈ paths := by
  unfold pathFound
  rw [List.any_eq_true]
  constructor
  · rintro ⟨q, hq, hqp⟩
    rwa [← eq_of_beq hqp]
  · intro hp
    exact ⟨p, hp, beq_self_eq_true p⟩

/-- Function `css_analyze_agent` (`css_analyze_agent.py` lines 201-353):
a missing directory or empty scan raises `CssFileNotFoundError`; the LLM
then names a main CSS path, which is verified against the scanned file
list (lines 330-340) — a path outside that list raises instead of being
returned; generic failures inside the stage body are wrapped with the
prefix of line 353. -/
def css_analyze_agent (directoryPath : String) (dirExists : Bool)
    (entries : List ScanEntry)
    (llm : List (String × String) → Except String String) :
    Except WorkflowError CssAnalysisResult :=
  if dirExists = false then .error (.cssFileNotFoundError directoryPath)
  else
    match scan_css_files directoryPath entries with
    | .error d => .error (.cssFileNotFoundError d)
    | .ok cssFiles =>
      match llm cssFiles with
      | .error e =>
        .error (.genericError ("CSS analysis failed: " ++ e))
      | .ok mainCssPath =>
        if pathFound (cssFiles.map Prod.fst) mainCssPath then
          .ok ⟨mainCssPath⟩
        else
          .error (.genericError
            ("CSS analysis failed: No main CSS file could be identified in project: "
              ++ directoryPath))

/-- Claim C9: every `CssAnalysisResult` returned by `css_analyze_agent`
names a CSS file from the scanned set of existing readable files under
the project root — the LLM-chosen path is verified against that set, and
a chosen path outside it makes the agent raise instead of returning a
result. -/
theorem C9_main_css_path_verified (directoryPath : String)
    (entries : List ScanEntry)
    (llm : List (String × String) → Except String String) :
    (∀ r, css_analyze_agent directoryPath true entries llm = .ok r →
      r.main_css_path ∈
        (scanReadable cssExcludeDirs entries).map Prod.fst ∧
      ∃ e ∈ entries, entryExcluded cssExcludeDirs e = false ∧
        e.relPath = r.main_css_path ∧ ∃ c, e.content = some c) ∧
    (∀ p, scanReadable cssExcludeDirs entries ≠ [] →
      llm (scanReadable cssExcludeDirs entries) = .ok p →
      p ∉ (scanReadable cssExcludeDirs entries).map Prod.fst →
      css_analyze_agent directoryPath true entries llm =
        .error (.genericError
          ("CSS analysis failed: No main CSS file could be identified in project: "
            ++ directoryPath))) := by
  constructor
  · intro r hr
    unfold css_analyze_agent at hr
    rw [if_neg (by simp)] at hr
    cases hscan : scan_css_files directoryPath entries with
    | error d => rw [hscan] at hr; exact absurd hr (by simp)
    | ok cssFiles =>
      rw [hscan] at hr
      simp only [] at hr
      have hfiles : cssFiles = scanReadable cssExcludeDirs entries := by
        unfold scan_css_files at hscan
        by_cases hemp : (scanReadable cssExcludeDirs entries).isEmpty = true
        · rw [if_pos hemp] at hscan; exact absurd hscan (by simp)
        · rw [if_neg hemp] at hscan
          exact (Except.ok.inj hscan).symm
      cases hllm : llm cssFiles with
      | error e => rw [hllm] at hr; exact absurd hr (by simp)
      | ok p =>
        rw [hllm] at hr
        simp only [] at hr
        by_cases hc : pathFound (cssFiles.map Prod.fst) p = true
        · rw [if_pos hc] at hr
          have hrp : r = ⟨p⟩ := (Except.ok.inj hr).symm
          rw [hfiles] at hc
          have hpmem := (pathFound_iff _ p).mp hc
          refine ⟨by rw [hrp]; exact hpmem, ?_⟩
          obtain ⟨c0, hc0mem, hc0eq⟩ := List.mem_map.mp hpmem
          obtain ⟨e0, he0, hprop⟩ := scanReadable_mem cssExcludeDirs entries
            c0.1 c0.2 (by simpa using hc0mem)
          refine ⟨e0, he0, hprop.1, ?_, ⟨c0.2, hprop.2.2⟩⟩
          rw [hrp, hprop.2.1, hc0eq]
        · rw [if_neg hc] at hr
          exact absurd hr (by simp)
  · intro p hne hllm hnot
    unfold css_analyze_agent
    rw [if_neg (by simp)]
    have hscan : scan_css_files directoryPath entries =
        .ok (scanReadable cssExcludeDirs entries) := by
      unfold scan_css_files
      rw [if_neg (by simp [List.isEmpty_iff, hne])]
    rw [hscan]
    simp only []
    rw [hllm]
    simp only []
    rw [if_neg (fun hc => hnot ((pathFound_iff _ p).mp hc))]

/-- Witness for C9: with one readable CSS file `styles/main.css` and an
LLM answer naming a non-scanned file, the agent raises instead of
returning. -/
theorem C9_main_css_path_verified_witness :
    css_analyze_agent "proj" true
        [⟨"styles/main.css", ["styles", "main.css"], some "body"⟩]
        (fun _ => .ok "styles/other.css") =
      .error (.genericError
        ("CSS analysis failed: No main CSS file could be identified in project: "
          ++ "proj")) :=
  (C9_main_css_path_verified "proj"
      [⟨"styles/main.css", ["styles", "main.css"], some "body"⟩]
      (fun _ => .ok "styles/other.css")).2 "styles/other.css"
    (by decide) rfl (by decide)

end Workflow
